import Mathlib

/-!
Verification development for the Refactoring Swarm orchestrator.

The repository drives a bounded repair loop per source file:
auditor → tester → fixer → judge, retrying until the judge passes or the
iteration bound is hit.  This file gives a shallow embedding of

  * the path manipulation and test discovery of `src/judge.py`,
  * the per-file state machine of `main.py` (nodes, `should_retry`,
    `increment_iteration`, the retry loop),
  * the plan analysis of `src/auditor.py`,

and proves the specified control-flow, discovery-precedence and
error-handling properties about them.  External capabilities (the LLM
calls, the filesystem, subprocess runs) are modelled as explicit
environment parameters, matching the spec's "capability port" view.
-/

deriving instance DecidableEq for Except

namespace Swarm

/-! ### String and path helpers

These are written over `List Char` with structural recursion so that
every definition in this file is evaluable by the kernel.  They model
the Python `str` and `os.path` operations the repository uses on
relative, slash-separated paths. -/

/-- Split a character list at every occurrence of one character. -/
def splitChar (c : Char) : List Char → List (List Char)
  | [] => [[]]
  | a :: rest =>
    match splitChar c rest with
    | [] => [[]]
    | h :: t => if a = c then [] :: h :: t else (a :: h) :: t

/-- Join strings with a separator (`sep.join` in Python). -/
def joinSep (sep : String) : List String → String
  | [] => ""
  | [x] => x
  | x :: y :: xs => x ++ sep ++ joinSep sep (y :: xs)

/-- The slash-separated components of a path. -/
def pathParts (p : String) : List String :=
  (splitChar '/' p.data).map (fun l => String.mk l)

/-- `os.path.dirname`: everything before the last slash (empty if none). -/
def dirname (p : String) : String :=
  joinSep "/" (pathParts p).dropLast

/-- `os.path.basename`: the component after the last slash. -/
def basename (p : String) : String :=
  (pathParts p).getLastD ""

/-- `os.path.splitext(...)[0]`: drop the final dot-extension. -/
def stripExt (f : String) : String :=
  let parts := (splitChar '.' f.data).map (fun l => String.mk l)
  if parts.length ≤ 1 then f else joinSep "." parts.dropLast

/-- `os.path.join` for one relative component. -/
def joinPath (d f : String) : String :=
  if d = "" then f else d ++ "/" ++ f

/-- Substring occurrence over character lists. -/
def containsSub (pat : List Char) : List Char → Bool
  | [] => pat.isEmpty
  | c :: rest => pat.isPrefixOf (c :: rest) || containsSub pat rest

/-- Substring test: `pat in s`. -/
def containsStr (s pat : String) : Bool :=
  containsSub pat.data s.data

/-- `str.lower()`. -/
def toLowerStr (s : String) : String :=
  String.mk (s.data.map Char.toLower)

/-- `str.strip()`. -/
def trimStr (s : String) : String :=
  String.mk (((s.data.dropWhile Char.isWhitespace).reverse.dropWhile Char.isWhitespace).reverse)

/-- Drop the first `n` characters. -/
def dropStr (s : String) (n : Nat) : String :=
  String.mk (s.data.drop n)

/-- `str.startswith`. -/
def isPrefixStr (p s : String) : Bool :=
  p.data.isPrefixOf s.data

/-! ### Judge (`src/judge.py`)

Subprocess execution is modelled by an environment describing, for each
target, what `subprocess.run` would do: complete with an exit code and
combined stdout+stderr output, time out, raise `FileNotFoundError`
(runner binary absent), or raise some other exception. -/

inductive RunResult where
  | completed (exitcode : Int) (output : String)
  | timeoutExpired
  | fileNotFound (msg : String)
  | otherExc (msg : String)
deriving Repr, DecidableEq

structure JudgeEnv where
  /-- `os.path.exists` -/
  pathExists : String → Bool
  /-- result of `pytest <target> -v` (target is a file or a directory) -/
  pytestRun : String → RunResult
  /-- result of `python -m unittest <file>` -/
  unittestRun : String → RunResult
  /-- result of `python -m unittest discover -s <dir> -v` -/
  unittestDiscover : String → RunResult
  /-- `open(path).read()`; `none` means the open/read raised -/
  readFile : String → Option String
  /-- the exception text when reading fails -/
  readErrMsg : String → String
  /-- whether `compile(code, path, 'exec')` succeeds -/
  compileOk : String → Bool
  /-- the `SyntaxError` text when compilation fails -/
  syntaxErrMsg : String → String

namespace Judge

/-- The ordered conventional test-file candidates of `Judge.run_tests`. -/
def test_patterns (fp : String) : List String :=
  let directory := dirname fp
  let filename := basename fp
  let filename_no_ext := stripExt filename
  [ joinPath directory ("test_" ++ filename)
  , joinPath directory (filename_no_ext ++ "_test.py")
  , joinPath (joinPath directory "tests") ("test_" ++ filename)
  , joinPath (joinPath directory "tests") (filename_no_ext ++ "_test.py")
  , joinPath (joinPath (dirname directory) "tests") ("test_" ++ filename) ]

/-- First existing conventional candidate, if any. -/
def findTestFile (env : JudgeEnv) (fp : String) : Option String :=
  (test_patterns fp).find? env.pathExists

/-- `Judge._fallback_syntax_check`: syntax-only verdict on the artifact. -/
def fallback_syntax_check (env : JudgeEnv) (fp : String) : Bool × String :=
  match env.readFile fp with
  | none => (false, "❌ Error checking file: " ++ env.readErrMsg fp)
  | some code =>
    if env.compileOk code then
      (true, "✅ No unit tests found, but " ++ basename fp ++ " has valid Python syntax.")
    else
      (false, "❌ Syntax Error: " ++ env.syntaxErrMsg code)

/-- `Judge._run_test_file`: run one specific test file, pytest first, then
unittest.  An unexpected exception in the pytest branch propagates
(`Except.error`); in the unittest branch it is caught. -/
def run_test_file (env : JudgeEnv) (tf : String) : Except String (Bool × String) :=
  match env.pytestRun tf with
  | RunResult.completed code out => Except.ok (code == 0, out)
  | RunResult.timeoutExpired => Except.ok (false, "Tests timed out")
  | RunResult.otherExc m => Except.error m
  | RunResult.fileNotFound _ =>
    match env.unittestRun tf with
    | RunResult.completed code out => Except.ok (code == 0, out)
    | RunResult.timeoutExpired => Except.ok (false, "Tests timed out")
    | RunResult.fileNotFound m => Except.ok (false, "Failed to run tests: " ++ m)
    | RunResult.otherExc m => Except.ok (false, "Failed to run tests: " ++ m)

/-- The pytest "zero tests" markers, checked on lowercased output. -/
def zeroPytestMarker (out : String) : Bool :=
  containsStr (toLowerStr out) "no tests ran" || containsStr (toLowerStr out) "collected 0 items"

/-- `Judge._run_pytest_or_unittest`: directory-wide discovery, falling back
to the syntax-only check when a run reports zero tests, or when both
runners are unavailable. -/
def run_pytest_or_unittest (env : JudgeEnv) (directory fp : String) :
    Except String (Bool × String) :=
  match env.pytestRun directory with
  | RunResult.completed code out =>
    if zeroPytestMarker out then Except.ok (fallback_syntax_check env fp)
    else Except.ok (code == 0, out)
  | RunResult.timeoutExpired => Except.ok (false, "Tests timed out")
  | RunResult.otherExc m => Except.error m
  | RunResult.fileNotFound _ =>
    match env.unittestDiscover directory with
    | RunResult.completed code out =>
      if containsStr out "Ran 0 tests" then Except.ok (fallback_syntax_check env fp)
      else Except.ok (code == 0, out)
    | RunResult.timeoutExpired => Except.ok (false, "Tests timed out")
    | RunResult.fileNotFound _ => Except.ok (fallback_syntax_check env fp)
    | RunResult.otherExc _ => Except.ok (fallback_syntax_check env fp)

/-- `Judge.run_tests`: conventional-location search first, then
directory-wide discovery with fallback. -/
def run_tests (env : JudgeEnv) (fp : String) : Except String (Bool × String) :=
  match findTestFile env fp with
  | some tf => run_test_file env tf
  | none => run_pytest_or_unittest env (dirname fp) fp

end Judge

/-- The path where `Tester.generate_tests` writes the generated harness:
`os.path.join(os.path.dirname(file_path), "test_" + filename)`. -/
def testerHarnessPath (fp : String) : String :=
  joinPath (dirname fp) ("test_" ++ basename fp)

/-! ### Orchestrator (`main.py`)

The four agent capabilities are modelled as oracles indexed by the
iteration number: each gives the outcome (`Except.error` = the Python
call raised) of invoking that capability at that iteration. -/

structure Plan where
  file : String
  issues : List String
  errorField : Option String
deriving Repr, DecidableEq

structure AgentState where
  file_path : String
  plan : Option Plan
  test_file : Option String
  iteration : Nat
  max_iter : Nat
  success : Bool
  test_logs : String
  error : Option String
deriving Repr, DecidableEq

/-- Python truthiness of the `error` field (`None` and `""` are falsy). -/
def errTruthy : Option String → Bool
  | none => false
  | some s => !(s == "")

/-- Python truthiness of the `plan` field. -/
def planTruthy : Option Plan → Bool
  | none => false
  | some _ => true

structure Oracles where
  auditorRes : Nat → Except String Plan
  testerRes : Nat → Except String String
  fixerRes : Nat → Except String Unit
  judgeRes : Nat → Except String (Bool × String)

/-- Each node returns the updated state plus whether the stage capability
was actually invoked (`false` = the node skipped its work). -/
def auditor_node (o : Oracles) (s : AgentState) : AgentState × Bool :=
  match o.auditorRes s.iteration with
  | Except.ok plan => ({ s with plan := some plan, error := none }, true)
  | Except.error e =>
    ({ s with plan := none, error := some ("Auditor failed: " ++ e), success := false }, true)

def tester_node (o : Oracles) (s : AgentState) : AgentState × Bool :=
  if errTruthy s.error || !planTruthy s.plan then (s, false)
  else
    match o.testerRes s.iteration with
    | Except.ok tf => ({ s with test_file := some tf, error := none }, true)
    | Except.error _ => ({ s with test_file := none, error := none }, true)

def fixer_node (o : Oracles) (s : AgentState) : AgentState × Bool :=
  if errTruthy s.error || !planTruthy s.plan then (s, false)
  else
    match o.fixerRes s.iteration with
    | Except.ok _ => ({ s with error := none }, true)
    | Except.error e =>
      ({ s with error := some ("Fixer failed: " ++ e), success := false }, true)

def judge_node (o : Oracles) (s : AgentState) : AgentState × Bool :=
  if errTruthy s.error then (s, false)
  else
    match o.judgeRes s.iteration with
    | Except.ok (success, logs) =>
      ({ s with success := success, test_logs := logs,
                error := if success then none else some "Tests failed" }, true)
    | Except.error e =>
      ({ s with success := false, test_logs := "Judge failed: " ++ e,
                error := some ("Judge failed: " ++ e) }, true)

/-- `should_retry`: `stop` is the Python branch returning "end". -/
inductive Decision where
  | retry
  | stop
deriving Repr, DecidableEq

def should_retry (s : AgentState) : Decision :=
  if s.success then Decision.stop
  else if s.iteration ≥ s.max_iter then Decision.stop
  else if errTruthy s.error && !(s.error == some "Tests failed") then Decision.stop
  else Decision.retry

def increment_iteration (s : AgentState) : AgentState :=
  { s with iteration := s.iteration + 1, error := none }

inductive Stage where
  | auditor
  | tester
  | fixer
  | judge
deriving Repr, DecidableEq

/-- Trace entry: (iteration, capability actually invoked). -/
abbrev Trace := List (Nat × Stage)

def stepTrace (i : Nat) (b2 b3 b4 : Bool) : Trace :=
  (i, Stage.auditor) ::
    ((if b2 then [(i, Stage.tester)] else []) ++
     (if b3 then [(i, Stage.fixer)] else []) ++
     (if b4 then [(i, Stage.judge)] else []))

/-- One pass through the graph edges auditor → tester → fixer → judge. -/
def stepIteration (o : Oracles) (s : AgentState) : AgentState × Trace :=
  let s1 := (auditor_node o s).1
  let p2 := tester_node o s1
  let p3 := fixer_node o p2.1
  let p4 := judge_node o p3.1
  (p4.1, stepTrace s.iteration p2.2 p3.2 p4.2)

/-- The retry loop: judge's conditional edge either ends the run or goes
through `increment` back to the auditor.  `fuel` bounds the recursion;
`max_iter + 1` is always enough because a retry needs
`iteration < max_iter`. -/
def runLoop (o : Oracles) : Nat → AgentState → AgentState × Trace
  | 0, s => (s, [])
  | fuel + 1, s =>
    let step := stepIteration o s
    match should_retry step.1 with
    | Decision.stop => step
    | Decision.retry =>
      let rest := runLoop o fuel (increment_iteration step.1)
      (rest.1, step.2 ++ rest.2)

/-- The initial state built by `process_file`. -/
def initState (fp : String) (max_iter : Nat) : AgentState :=
  { file_path := fp, plan := none, test_file := none, iteration := 1,
    max_iter := max_iter, success := false, test_logs := "", error := none }

/-- One whole per-file run, as `workflow.invoke` performs it. -/
def runArtifact (o : Oracles) (fp : String) (max_iter : Nat) : AgentState × Trace :=
  runLoop o (max_iter + 1) (initState fp max_iter)

/-- `process_file`: the boolean a file's run contributes to the batch
results list. -/
def process_file (o : Oracles) (fp : String) (max_iter : Nat) : Bool :=
  (runArtifact o fp max_iter).1.success

/-- The per-file mark printed in the final summary of `main`. -/
def summaryMark (ok : Bool) : String :=
  if ok then "✅" else "❌"

/-! ### Spec-side outcome classification

The spec (§7) names three terminal outcomes.  This classifier — written
from the spec's words, for refinement comparison — reads them off a
final state: success wins; otherwise a truthy error other than the
retryable sentinel "Tests failed" is fatal; otherwise the run was cut
off by the iteration bound. -/

inductive Outcome where
  | Success
  | IncompleteAfterMaxIterations
  | FatalError (msg : String)
deriving Repr, DecidableEq

def specOutcome (s : AgentState) : Outcome :=
  if s.success then Outcome.Success
  else
    match s.error with
    | some e =>
      if e ≠ "" ∧ e ≠ "Tests failed" then Outcome.FatalError e
      else Outcome.IncompleteAfterMaxIterations
    | none => Outcome.IncompleteAfterMaxIterations

/-! ### Auditor (`src/auditor.py`)

The filesystem is an association list path ↦ content.  The LLM call and
`json.loads` are environment parameters; `ParseOutcome` distinguishes a
`JSONDecodeError` (caught by the code) from a successful parse to a
non-dict (the subsequent `plan["file"] = file_path` raises, uncaught)
and a parse to a dict. -/

abbrev FS := List (String × String)

def fsRead (fs : FS) (p : String) : Option String :=
  (fs.find? (fun e => e.1 == p)).map Prod.snd

/-- The part of a character list before the LAST occurrence of `pat`
(`none` when `pat` does not occur). -/
def beforeLastOcc (pat : List Char) : List Char → Option (List Char)
  | [] => if pat.isEmpty then some [] else none
  | c :: rest =>
    match beforeLastOcc pat rest with
    | some l => some (c :: l)
    | none => if pat.isPrefixOf (c :: rest) then some [] else none

/-- `s.rsplit(sep, 1)[0]`: everything before the last occurrence of
`sep`, or `s` itself when `sep` does not occur. -/
def cutLastSep (s sep : String) : String :=
  match beforeLastOcc sep.data s.data with
  | some l => String.mk l
  | none => s

/-- The markdown-fence stripping applied to the model response:
`split(sep, 1)[1]` when the text starts with the fence, then
`rsplit("```", 1)[0].strip()`. -/
def stripFences (t : String) : String :=
  if isPrefixStr "```json" t then trimStr (cutLastSep (dropStr t 7) "```")
  else if isPrefixStr "```" t then trimStr (cutLastSep (dropStr t 3) "```")
  else t

structure ParsedPlan where
  issues : List String
  errorField : Option String
deriving Repr, DecidableEq

inductive ParseOutcome where
  /-- `json.loads` raises `JSONDecodeError` -/
  | invalidJson
  /-- parses, but to a non-dict: `plan["file"] = ...` raises with this text -/
  | nonDict (msg : String)
  /-- parses to a dict -/
  | dict (p : ParsedPlan)
deriving Repr, DecidableEq

structure AuditorEnv where
  /-- the chat-completion call on the full prompt; `Except.error` = raised -/
  llm : String → Except String String
  /-- `json.loads` on the cleaned response text -/
  parse : String → ParseOutcome

def auditorPromptPath : String := "src/prompts/auditor_prompt_v1.txt"

/-- `Auditor.analyze`: reads the artifact and the prompt file, calls the
model, strips fences, parses.  A `JSONDecodeError` is absorbed into a
fallback plan; every other failure propagates.  Returns the (unchanged)
filesystem alongside the plan: the stage never writes. -/
def Auditor.analyze (env : AuditorEnv) (fs : FS) (fp : String) :
    Except String (Plan × FS) :=
  match fsRead fs fp with
  | none => Except.error ("No such file: " ++ fp)
  | some code =>
    match fsRead fs auditorPromptPath with
    | none => Except.error ("No such file: " ++ auditorPromptPath)
    | some promptTemplate =>
      match env.llm (promptTemplate ++ "\n\nPython code to analyze:\n" ++ code) with
      | Except.error e => Except.error e
      | Except.ok content =>
        match env.parse (stripFences (trimStr content)) with
        | ParseOutcome.dict p =>
          Except.ok ({ file := fp, issues := p.issues, errorField := p.errorField }, fs)
        | ParseOutcome.nonDict m => Except.error m
        | ParseOutcome.invalidJson =>
          Except.ok ({ file := fp, issues := [], errorField := some "Failed to parse response" }, fs)

/-! ### Spec-side six-candidate search (for claim C6)

The claim asserts the conventional search checks six candidates; this
list — written from the spec's words, for refinement comparison — adds
the `_test` suffix pattern at the parent's `tests/` directory. -/

def specSixCandidates (fp : String) : List String :=
  let directory := dirname fp
  let filename := basename fp
  let filename_no_ext := stripExt filename
  [ joinPath directory ("test_" ++ filename)
  , joinPath directory (filename_no_ext ++ "_test.py")
  , joinPath (joinPath directory "tests") ("test_" ++ filename)
  , joinPath (joinPath directory "tests") (filename_no_ext ++ "_test.py")
  , joinPath (joinPath (dirname directory) "tests") ("test_" ++ filename)
  , joinPath (joinPath (dirname directory) "tests") (filename_no_ext ++ "_test.py") ]

/-- The step relation of iteration numbers along a run's trace: a stage
is invoked either at the same iteration as the previous one or right
after a single increment. -/
def stepRel (a b : Nat) : Prop := a = b ∨ b = a + 1

/-! ### Concrete instances used by witnesses and counterexamples -/

def plan0 : Plan := { file := "f.py", issues := [], errorField := none }

/-- All capabilities succeed; the judge passes. -/
def oPass : Oracles :=
  { auditorRes := fun _ => Except.ok plan0
  , testerRes := fun _ => Except.ok "f_test"
  , fixerRes := fun _ => Except.ok ()
  , judgeRes := fun _ => Except.ok (true, "all tests passed") }

/-- All capabilities succeed; the judge fails retryably on every call. -/
def oAllFail : Oracles :=
  { auditorRes := fun _ => Except.ok plan0
  , testerRes := fun _ => Except.ok "f_test"
  , fixerRes := fun _ => Except.ok ()
  , judgeRes := fun _ => Except.ok (false, "1 failed") }

/-- The auditor raises on every call. -/
def oAudFail : Oracles :=
  { auditorRes := fun _ => Except.error "boom"
  , testerRes := fun _ => Except.ok "f_test"
  , fixerRes := fun _ => Except.ok ()
  , judgeRes := fun _ => Except.ok (true, "all tests passed") }

/-- The fixer raises on every call. -/
def oFixFail : Oracles :=
  { auditorRes := fun _ => Except.ok plan0
  , testerRes := fun _ => Except.ok "f_test"
  , fixerRes := fun _ => Except.error "disk full"
  , judgeRes := fun _ => Except.ok (true, "all tests passed") }

/-- The tester raises on every call; everything else succeeds. -/
def oTestFail : Oracles :=
  { auditorRes := fun _ => Except.ok plan0
  , testerRes := fun _ => Except.error "llm down"
  , fixerRes := fun _ => Except.ok ()
  , judgeRes := fun _ => Except.ok (true, "all tests passed") }

/-- A world where the tester-generated harness for `a/lol.py` exists and
pytest passes on it. -/
def wEnvHarness : JudgeEnv :=
  { pathExists := fun p => p == "a/test_lol.py"
  , pytestRun := fun _ => RunResult.completed 0 "2 passed"
  , unittestRun := fun _ => RunResult.fileNotFound "python"
  , unittestDiscover := fun _ => RunResult.fileNotFound "python"
  , readFile := fun _ => some "x = 1"
  , readErrMsg := fun _ => "err"
  , compileOk := fun _ => true
  , syntaxErrMsg := fun _ => "bad" }

/-- A world with no harness anywhere; pytest discovery finds and fails
real tests. -/
def wEnvNone : JudgeEnv :=
  { pathExists := fun _ => false
  , pytestRun := fun _ => RunResult.completed 1 "1 failed"
  , unittestRun := fun _ => RunResult.fileNotFound "python"
  , unittestDiscover := fun _ => RunResult.fileNotFound "python"
  , readFile := fun _ => some "x = 1"
  , readErrMsg := fun _ => "err"
  , compileOk := fun _ => true
  , syntaxErrMsg := fun _ => "bad" }

/-- A world where only the parent-level `tests/<name>_test.py` file
exists — the sixth candidate the claim asserts and the code lacks. -/
def cexEnv : JudgeEnv :=
  { pathExists := fun p => p == "proj/tests/lol_test.py"
  , pytestRun := fun _ => RunResult.fileNotFound "pytest"
  , unittestRun := fun _ => RunResult.fileNotFound "python"
  , unittestDiscover := fun _ => RunResult.fileNotFound "python"
  , readFile := fun _ => some "x = 1"
  , readErrMsg := fun _ => "err"
  , compileOk := fun _ => true
  , syntaxErrMsg := fun _ => "bad" }

/-- A world where pytest discovery completes but collects zero tests. -/
def c7Env : JudgeEnv :=
  { pathExists := fun _ => false
  , pytestRun := fun _ => RunResult.completed 5 "collected 0 items"
  , unittestRun := fun _ => RunResult.fileNotFound "python"
  , unittestDiscover := fun _ => RunResult.fileNotFound "python"
  , readFile := fun _ => some "x = 1"
  , readErrMsg := fun _ => "err"
  , compileOk := fun _ => true
  , syntaxErrMsg := fun _ => "bad" }

/-- A world where pytest is absent and unittest discovery runs zero
tests. -/
def c7bEnv : JudgeEnv :=
  { pathExists := fun _ => false
  , pytestRun := fun _ => RunResult.fileNotFound "no pytest"
  , unittestRun := fun _ => RunResult.fileNotFound "python"
  , unittestDiscover := fun _ => RunResult.completed 1 "Ran 0 tests in 0.000s"
  , readFile := fun _ => some "x = 1"
  , readErrMsg := fun _ => "err"
  , compileOk := fun _ => true
  , syntaxErrMsg := fun _ => "bad" }

/-- A world with a syntactically valid artifact, no harness anywhere and
no runner binaries at all. -/
def c8Env : JudgeEnv :=
  { pathExists := fun _ => false
  , pytestRun := fun _ => RunResult.fileNotFound "no pytest"
  , unittestRun := fun _ => RunResult.fileNotFound "no python"
  , unittestDiscover := fun _ => RunResult.fileNotFound "no python"
  , readFile := fun _ => some "print(1)"
  , readErrMsg := fun _ => "err"
  , compileOk := fun _ => true
  , syntaxErrMsg := fun _ => "bad" }

/-- An auditor environment whose model response is not valid JSON. -/
def aEnvBadJson : AuditorEnv :=
  { llm := fun _ => Except.ok "that is not json at all"
  , parse := fun _ => ParseOutcome.invalidJson }

def fs0 : FS := [("f.py", "x = 1"), (auditorPromptPath, "You are an auditor.")]

end Swarm

/-! ## Helper lemmas -/

namespace Swarm

theorem auditor_node_iter (o : Oracles) (s : AgentState) :
    (auditor_node o s).1.iteration = s.iteration := by
  unfold auditor_node
  cases o.auditorRes s.iteration <;> rfl

theorem auditor_node_max (o : Oracles) (s : AgentState) :
    (auditor_node o s).1.max_iter = s.max_iter := by
  unfold auditor_node
  cases o.auditorRes s.iteration <;> rfl

theorem tester_node_iter (o : Oracles) (s : AgentState) :
    (tester_node o s).1.iteration = s.iteration := by
  unfold tester_node
  split
  · rfl
  · cases o.testerRes s.iteration <;> rfl

theorem tester_node_max (o : Oracles) (s : AgentState) :
    (tester_node o s).1.max_iter = s.max_iter := by
  unfold tester_node
  split
  · rfl
  · cases o.testerRes s.iteration <;> rfl

theorem fixer_node_iter (o : Oracles) (s : AgentState) :
    (fixer_node o s).1.iteration = s.iteration := by
  unfold fixer_node
  split
  · rfl
  · cases o.fixerRes s.iteration <;> rfl

theorem fixer_node_max (o : Oracles) (s : AgentState) :
    (fixer_node o s).1.max_iter = s.max_iter := by
  unfold fixer_node
  split
  · rfl
  · cases o.fixerRes s.iteration <;> rfl

theorem judge_node_iter (o : Oracles) (s : AgentState) :
    (judge_node o s).1.iteration = s.iteration := by
  unfold judge_node
  split
  · rfl
  · cases h : o.judgeRes s.iteration with
    | ok v => cases v; rfl
    | error e => rfl

theorem judge_node_max (o : Oracles) (s : AgentState) :
    (judge_node o s).1.max_iter = s.max_iter := by
  unfold judge_node
  split
  · rfl
  · cases h : o.judgeRes s.iteration with
    | ok v => cases v; rfl
    | error e => rfl

theorem stepIteration_iter (o : Oracles) (s : AgentState) :
    (stepIteration o s).1.iteration = s.iteration := by
  simp only [stepIteration]
  rw [judge_node_iter, fixer_node_iter, tester_node_iter, auditor_node_iter]

theorem stepIteration_max (o : Oracles) (s : AgentState) :
    (stepIteration o s).1.max_iter = s.max_iter := by
  simp only [stepIteration]
  rw [judge_node_max, fixer_node_max, tester_node_max, auditor_node_max]

theorem mem_if_singleton {α : Type} {e x : α} {b : Bool}
    (he : e ∈ (if b then [x] else [])) : e = x := by
  split at he
  · simpa using he
  · simp at he

theorem stepTrace_iter (i : Nat) (b2 b3 b4 : Bool) :
    ∀ e ∈ stepTrace i b2 b3 b4, e.1 = i := by
  intro e he
  simp only [stepTrace, List.mem_cons, List.mem_append] at he
  rcases he with rfl | (he | he) | he
  · rfl
  · rw [mem_if_singleton he]
  · rw [mem_if_singleton he]
  · rw [mem_if_singleton he]

theorem stepIteration_trace_iter (o : Oracles) (s : AgentState) :
    ∀ e ∈ (stepIteration o s).2, e.1 = s.iteration := by
  intro e he
  simp only [stepIteration] at he
  exact stepTrace_iter _ _ _ _ e he

theorem stepIteration_trace_head (o : Oracles) (s : AgentState) :
    ((stepIteration o s).2.map Prod.fst).head? = some s.iteration := by
  simp [stepIteration, stepTrace]

theorem append_ne_of_length (a b c : String) (h : a.length + b.length ≠ c.length) :
    a ++ b ≠ c := fun heq => h (by rw [← String.length_append, heq])

theorem auditor_msg_ne_empty (e : String) : ("Auditor failed: " ++ e) ≠ "" := by
  apply append_ne_of_length
  have h1 : ("Auditor failed: " : String).length = 16 := rfl
  have h2 : ("" : String).length = 0 := rfl
  omega

theorem auditor_msg_ne_tests_failed (e : String) :
    ("Auditor failed: " ++ e) ≠ "Tests failed" := by
  apply append_ne_of_length
  have h1 : ("Auditor failed: " : String).length = 16 := rfl
  have h2 : ("Tests failed" : String).length = 12 := rfl
  omega

theorem fixer_msg_ne_empty (e : String) : ("Fixer failed: " ++ e) ≠ "" := by
  apply append_ne_of_length
  have h1 : ("Fixer failed: " : String).length = 14 := rfl
  have h2 : ("" : String).length = 0 := rfl
  omega

theorem fixer_msg_ne_tests_failed (e : String) :
    ("Fixer failed: " ++ e) ≠ "Tests failed" := by
  apply append_ne_of_length
  have h1 : ("Fixer failed: " : String).length = 14 := rfl
  have h2 : ("Tests failed" : String).length = 12 := rfl
  omega

theorem should_retry_retry_lt {s : AgentState} (h : should_retry s = Decision.retry) :
    s.iteration < s.max_iter := by
  unfold should_retry at h
  split at h
  · exact absurd h (by simp)
  · split at h
    · exact absurd h (by simp)
    · split at h
      · exact absurd h (by simp)
      · omega

theorem specOutcome_success_iff (s : AgentState) :
    specOutcome s = Outcome.Success ↔ s.success = true := by
  unfold specOutcome
  cases hsu : s.success with
  | true => simp
  | false =>
    simp only [Bool.false_eq_true, if_false]
    cases herr : s.error with
    | none => simp
    | some e =>
      by_cases hcond : e ≠ "" ∧ e ≠ "Tests failed"
      · simp [hcond]
      · simp [hcond]

theorem chain_stepRel_of_const (i : Nat) :
    ∀ (l : List Nat), (∀ x ∈ l, x = i) → List.Chain' stepRel l
  | [], _ => List.chain'_nil
  | [_], _ => List.chain'_singleton _
  | x :: y :: rest, h => by
    have hx := h x (by simp)
    have hy := h y (by simp)
    have tail := chain_stepRel_of_const i (y :: rest) (fun z hz => h z (by simp [hz]))
    exact List.Chain'.cons (by rw [hx, hy]; exact Or.inl rfl) tail

theorem stepRel_le {a b : Nat} (h : stepRel a b) : a ≤ b := by
  rcases h with rfl | rfl <;> omega

/-- The central invariant of the retry loop: iteration numbers along the
trace start at the current iteration, rise by single increments, and
never exceed the bound; the final state's counters obey the bound too. -/
theorem runLoop_bounds (o : Oracles) :
    ∀ (fuel : Nat) (s : AgentState), s.iteration ≤ s.max_iter →
      (∀ e ∈ (runLoop o fuel s).2, s.iteration ≤ e.1 ∧ e.1 ≤ s.max_iter) ∧
      List.Chain' stepRel ((runLoop o fuel s).2.map Prod.fst) ∧
      (∀ y ∈ ((runLoop o fuel s).2.map Prod.fst).head?, y = s.iteration) ∧
      s.iteration ≤ (runLoop o fuel s).1.iteration ∧
      (runLoop o fuel s).1.iteration ≤ s.max_iter ∧
      (runLoop o fuel s).1.max_iter = s.max_iter := by
  intro fuel
  induction fuel with
  | zero =>
    intro s hs
    simp [runLoop, hs]
  | succ n ih =>
    intro s hs
    cases hd : should_retry (stepIteration o s).1 with
    | stop =>
      have hrun : runLoop o (n + 1) s = stepIteration o s := by
        simp only [runLoop]
        rw [hd]
      rw [hrun]
      refine ⟨?_, ?_, ?_, ?_, ?_, ?_⟩
      · intro e he
        rw [stepIteration_trace_iter o s e he]
        exact ⟨le_refl _, hs⟩
      · apply chain_stepRel_of_const s.iteration
        intro x hx
        rcases List.mem_map.1 hx with ⟨e, he, rfl⟩
        exact stepIteration_trace_iter o s e he
      · intro y hy
        rw [stepIteration_trace_head] at hy
        have : s.iteration = y := by simpa using hy
        omega
      · rw [stepIteration_iter]
      · rw [stepIteration_iter]; exact hs
      · rw [stepIteration_max]
    | retry =>
      have hlt : s.iteration < s.max_iter := by
        have := should_retry_retry_lt hd
        rwa [stepIteration_iter, stepIteration_max] at this
      have hrun : runLoop o (n + 1) s =
          ((runLoop o n (increment_iteration (stepIteration o s).1)).1,
           (stepIteration o s).2 ++ (runLoop o n (increment_iteration (stepIteration o s).1)).2) := by
        simp only [runLoop]
        rw [hd]
      have hinc_iter : (increment_iteration (stepIteration o s).1).iteration = s.iteration + 1 := by
        simp [increment_iteration, stepIteration_iter]
      have hinc_max : (increment_iteration (stepIteration o s).1).max_iter = s.max_iter := by
        simp [increment_iteration, stepIteration_max]
      have hs' : (increment_iteration (stepIteration o s).1).iteration ≤
          (increment_iteration (stepIteration o s).1).max_iter := by
        rw [hinc_iter, hinc_max]; omega
      obtain ⟨ih1, ih2, ih3, ih4, ih5, ih6⟩ := ih (increment_iteration (stepIteration o s).1) hs'
      simp only [hinc_iter, hinc_max] at ih1 ih3 ih4 ih5 ih6
      have hfst : (runLoop o (n + 1) s).1 =
          (runLoop o n (increment_iteration (stepIteration o s).1)).1 := by
        rw [hrun]
      have hsnd : (runLoop o (n + 1) s).2 =
          (stepIteration o s).2 ++ (runLoop o n (increment_iteration (stepIteration o s).1)).2 := by
        rw [hrun]
      refine ⟨?_, ?_, ?_, ?_, ?_, ?_⟩
      · intro e he
        rw [hsnd] at he
        rcases List.mem_append.1 he with he | he
        · rw [stepIteration_trace_iter o s e he]
          exact ⟨le_refl _, le_of_lt hlt⟩
        · obtain ⟨h1, h2⟩ := ih1 e he
          exact ⟨by omega, h2⟩
      · rw [hsnd, List.map_append]
        rw [List.chain'_append]
        refine ⟨?_, ih2, ?_⟩
        · apply chain_stepRel_of_const s.iteration
          intro x hx
          rcases List.mem_map.1 hx with ⟨e, he, rfl⟩
          exact stepIteration_trace_iter o s e he
        · intro x hx y hy
          have hxv : x = s.iteration := by
            have hmem := List.mem_of_mem_getLast? hx
            rcases List.mem_map.1 hmem with ⟨e, he, rfl⟩
            exact stepIteration_trace_iter o s e he
          have hyv : y = s.iteration + 1 := ih3 y hy
          rw [hxv, hyv]
          exact Or.inr rfl
      · intro y hy
        rw [hsnd, List.map_append] at hy
        have hne : ((stepIteration o s).2.map Prod.fst) ≠ [] := by
          intro hnil
          have := stepIteration_trace_head o s
          rw [hnil] at this
          simp at this
        rw [List.head?_append_of_ne_nil _ hne] at hy
        rw [stepIteration_trace_head] at hy
        have : s.iteration = y := by simpa using hy
        omega
      · rw [hfst]; omega
      · rw [hfst]; exact ih5
      · rw [hfst]; exact ih6

end Swarm

/-! ## Claim theorems -/

namespace Swarm

/-- Helper: `List.find?` on a five-element list is the first-match
if-chain over its elements. -/
theorem find?_five {α : Type} (p : α → Bool) (a b c d e : α) :
    [a, b, c, d, e].find? p =
      if p a then some a else if p b then some b else if p c then some c
        else if p d then some d else if p e then some e else none := by
  by_cases ha : p a
  · rw [List.find?_cons_of_pos _ ha, if_pos ha]
  · rw [List.find?_cons_of_neg _ ha, if_neg ha]
    by_cases hb : p b
    · rw [List.find?_cons_of_pos _ hb, if_pos hb]
    · rw [List.find?_cons_of_neg _ hb, if_neg hb]
      by_cases hc : p c
      · rw [List.find?_cons_of_pos _ hc, if_pos hc]
      · rw [List.find?_cons_of_neg _ hc, if_neg hc]
        by_cases hd : p d
        · rw [List.find?_cons_of_pos _ hd, if_pos hd]
        · rw [List.find?_cons_of_neg _ hd, if_neg hd]
          by_cases he : p e
          · rw [List.find?_cons_of_pos _ he, if_pos he]
          · rw [List.find?_cons_of_neg _ he, if_neg he, List.find?_nil]

/-- C1: if the judge stage at the current iteration returns
`passed = true` (the auditor and fixer of that iteration having
succeeded, so the judge is actually reached), the retry decision is the
"end" branch, the run is a success, its spec-level outcome is `Success`,
and the whole remaining run invokes exactly the four stages of this one
iteration — no stage runs afterwards. -/
theorem judge_pass_ends_run (o : Oracles) (s : AgentState) (fuel : Nat)
    (p : Plan) (logs : String)
    (ha : o.auditorRes s.iteration = Except.ok p)
    (hf : o.fixerRes s.iteration = Except.ok ())
    (hj : o.judgeRes s.iteration = Except.ok (true, logs)) :
    should_retry (stepIteration o s).1 = Decision.stop ∧
    (runLoop o (fuel + 1) s).1.success = true ∧
    specOutcome (runLoop o (fuel + 1) s).1 = Outcome.Success ∧
    (runLoop o (fuel + 1) s).2 =
      [(s.iteration, Stage.auditor), (s.iteration, Stage.tester),
       (s.iteration, Stage.fixer), (s.iteration, Stage.judge)] := by
  cases htr : o.testerRes s.iteration with
  | ok tf =>
    refine ⟨?_, ?_, ?_, ?_⟩ <;>
      simp [runLoop, stepIteration, auditor_node, tester_node, fixer_node, judge_node,
            should_retry, specOutcome, ha, htr, hf, hj, errTruthy, planTruthy, stepTrace]
  | error te =>
    refine ⟨?_, ?_, ?_, ?_⟩ <;>
      simp [runLoop, stepIteration, auditor_node, tester_node, fixer_node, judge_node,
            should_retry, specOutcome, ha, htr, hf, hj, errTruthy, planTruthy, stepTrace]

theorem judge_pass_ends_run_witness :
    (runLoop oPass 1 (initState "f.py" 5)).1.success = true ∧
    (runLoop oPass 1 (initState "f.py" 5)).2 =
      [(1, Stage.auditor), (1, Stage.tester), (1, Stage.fixer), (1, Stage.judge)] := by
  have h := judge_pass_ends_run oPass (initState "f.py" 5) 0 plan0 "all tests passed"
    rfl rfl rfl
  exact ⟨h.2.1, h.2.2.2⟩

/-- C2: the iteration counter starts at 1, moves along the trace only by
staying put or incrementing by exactly one (hence is monotonically
non-decreasing), never exceeds `max_iter`, and in the concrete scenario
`max_iter = 3` with the judge failing retryably on every call the run
invokes the judge exactly 3 times and ends `IncompleteAfterMaxIterations`. -/
theorem iteration_monotone_bounded (o : Oracles) (fp : String) (m : Nat) (hm : 1 ≤ m) :
    (initState fp m).iteration = 1 ∧
    List.Chain' stepRel ((runArtifact o fp m).2.map Prod.fst) ∧
    List.Pairwise (· ≤ ·) ((runArtifact o fp m).2.map Prod.fst) ∧
    (∀ e ∈ (runArtifact o fp m).2, 1 ≤ e.1 ∧ e.1 ≤ m) ∧
    (runArtifact o fp m).1.iteration ≤ m ∧
    (runArtifact oAllFail "f.py" 3).2.countP (fun e => e.2 == Stage.judge) = 3 ∧
    specOutcome (runArtifact oAllFail "f.py" 3).1 = Outcome.IncompleteAfterMaxIterations := by
  have hinit : (initState fp m).iteration ≤ (initState fp m).max_iter := by
    simp [initState]; omega
  obtain ⟨h1, h2, h3, h4, h5, h6⟩ := runLoop_bounds o (m + 1) (initState fp m) hinit
  refine ⟨rfl, h2, ?_, ?_, ?_, by decide, by decide⟩
  · have hle : List.Chain' (· ≤ ·) ((runArtifact o fp m).2.map Prod.fst) :=
      h2.imp (fun a b h => stepRel_le h)
    exact List.chain'_iff_pairwise.1 hle
  · intro e he
    have hb := h1 e he
    simpa [initState] using hb
  · simpa [initState] using h5

theorem iteration_monotone_bounded_witness :
    (1 : Nat) ≤ 3 ∧ (runArtifact oPass "f.py" 3).1.iteration ≤ 3 :=
  ⟨by decide, (iteration_monotone_bounded oPass "f.py" 3 (by decide)).2.2.2.2.1⟩

/-- C3: if the auditor raises at the current iteration, no other stage of
that iteration is invoked; if the fixer raises (auditor having
succeeded), the judge is not invoked.  In both cases the run terminates
immediately at that same iteration with a `FatalError` outcome carrying
the stage's message, even though `iteration < max_iter` leaves budget. -/
theorem planner_mutator_failure_fatal (o : Oracles) (s : AgentState) (fuel : Nat)
    (hlt : s.iteration < s.max_iter) :
    (∀ e, o.auditorRes s.iteration = Except.error e →
      (runLoop o (fuel + 1) s).2 = [(s.iteration, Stage.auditor)] ∧
      specOutcome (runLoop o (fuel + 1) s).1 = Outcome.FatalError ("Auditor failed: " ++ e) ∧
      (runLoop o (fuel + 1) s).1.iteration = s.iteration) ∧
    (∀ p e, o.auditorRes s.iteration = Except.ok p →
      o.fixerRes s.iteration = Except.error e →
      (runLoop o (fuel + 1) s).2 =
        [(s.iteration, Stage.auditor), (s.iteration, Stage.tester), (s.iteration, Stage.fixer)] ∧
      specOutcome (runLoop o (fuel + 1) s).1 = Outcome.FatalError ("Fixer failed: " ++ e) ∧
      (runLoop o (fuel + 1) s).1.iteration = s.iteration) := by
  have hnge : ¬ s.iteration ≥ s.max_iter := by omega
  constructor
  · intro e ha
    have h1 := auditor_msg_ne_empty e
    have h2 := auditor_msg_ne_tests_failed e
    refine ⟨?_, ?_, ?_⟩ <;>
      simp [runLoop, stepIteration, auditor_node, tester_node, fixer_node, judge_node,
            should_retry, specOutcome, ha, errTruthy, planTruthy, stepTrace, h1, h2, hnge]
  · intro p e ha hf
    have h1 := fixer_msg_ne_empty e
    have h2 := fixer_msg_ne_tests_failed e
    cases htr : o.testerRes s.iteration with
    | ok tf =>
      refine ⟨?_, ?_, ?_⟩ <;>
        simp [runLoop, stepIteration, auditor_node, tester_node, fixer_node, judge_node,
              should_retry, specOutcome, ha, htr, hf, errTruthy, planTruthy, stepTrace,
              h1, h2, hnge]
    | error te =>
      refine ⟨?_, ?_, ?_⟩ <;>
        simp [runLoop, stepIteration, auditor_node, tester_node, fixer_node, judge_node,
              should_retry, specOutcome, ha, htr, hf, errTruthy, planTruthy, stepTrace,
              h1, h2, hnge]

theorem planner_mutator_failure_fatal_witness :
    ((runLoop oAudFail 1 (initState "f.py" 5)).2 = [(1, Stage.auditor)] ∧
     specOutcome (runLoop oAudFail 1 (initState "f.py" 5)).1 =
       Outcome.FatalError "Auditor failed: boom" ∧
     (runLoop oAudFail 1 (initState "f.py" 5)).1.iteration = 1) ∧
    ((runLoop oFixFail 1 (initState "f.py" 5)).2 =
       [(1, Stage.auditor), (1, Stage.tester), (1, Stage.fixer)] ∧
     specOutcome (runLoop oFixFail 1 (initState "f.py" 5)).1 =
       Outcome.FatalError "Fixer failed: disk full" ∧
     (runLoop oFixFail 1 (initState "f.py" 5)).1.iteration = 1) :=
  ⟨(planner_mutator_failure_fatal oAudFail (initState "f.py" 5) 0 (by decide)).1 "boom" rfl,
   (planner_mutator_failure_fatal oFixFail (initState "f.py" 5) 0 (by decide)).2
     plan0 "disk full" rfl rfl⟩

/-- C4: when the tester raises, the failure is absorbed — the harness
reference becomes `none`, the recorded error stays `none` — and both the
fixer and the judge capabilities are still invoked in that same
iteration. -/
theorem tester_failure_absorbed (o : Oracles) (s : AgentState)
    (p : Plan) (e : String)
    (ha : o.auditorRes s.iteration = Except.ok p)
    (ht : o.testerRes s.iteration = Except.error e)
    (hf : o.fixerRes s.iteration = Except.ok ()) :
    (tester_node o (auditor_node o s).1).1.test_file = none ∧
    (tester_node o (auditor_node o s).1).1.error = none ∧
    (stepIteration o s).1.test_file = none ∧
    (stepIteration o s).2 =
      [(s.iteration, Stage.auditor), (s.iteration, Stage.tester),
       (s.iteration, Stage.fixer), (s.iteration, Stage.judge)] := by
  cases hj : o.judgeRes s.iteration with
  | ok v =>
    obtain ⟨b, logs⟩ := v
    refine ⟨?_, ?_, ?_, ?_⟩ <;>
      simp [stepIteration, auditor_node, tester_node, fixer_node, judge_node,
            ha, ht, hf, hj, errTruthy, planTruthy, stepTrace]
  | error je =>
    refine ⟨?_, ?_, ?_, ?_⟩ <;>
      simp [stepIteration, auditor_node, tester_node, fixer_node, judge_node,
            ha, ht, hf, hj, errTruthy, planTruthy, stepTrace]

theorem tester_failure_absorbed_witness :
    (tester_node oTestFail (auditor_node oTestFail (initState "f.py" 5)).1).1.test_file = none ∧
    (stepIteration oTestFail (initState "f.py" 5)).2 =
      [(1, Stage.auditor), (1, Stage.tester), (1, Stage.fixer), (1, Stage.judge)] := by
  have h := tester_failure_absorbed oTestFail (initState "f.py" 5) plan0 "llm down" rfl rfl rfl
  exact ⟨h.1, h.2.2.2⟩

/-- C5: discovery precedence.  The tester-written harness path is the
first conventional candidate, so when it exists the judge executes
exactly that file, under the primary runner (pytest) first; any
conventional match preempts directory-wide discovery; discovery runs
only when no candidate exists; and a discovery run that completes with
tests found is returned as the verdict without reaching the syntax-only
fallback — fixed order, first success wins. -/
theorem verification_precedence (env : JudgeEnv) (fp : String) :
    (env.pathExists (testerHarnessPath fp) = true →
      Judge.run_tests env fp = Judge.run_test_file env (testerHarnessPath fp)) ∧
    (∀ t, Judge.findTestFile env fp = some t →
      Judge.run_tests env fp = Judge.run_test_file env t) ∧
    (∀ t c out, env.pytestRun t = RunResult.completed c out →
      Judge.run_test_file env t = Except.ok (c == 0, out)) ∧
    (Judge.findTestFile env fp = none →
      Judge.run_tests env fp = Judge.run_pytest_or_unittest env (dirname fp) fp) ∧
    (∀ c out, Judge.findTestFile env fp = none →
      env.pytestRun (dirname fp) = RunResult.completed c out →
      Judge.zeroPytestMarker out = false →
      Judge.run_tests env fp = Except.ok (c == 0, out)) := by
  refine ⟨?_, ?_, ?_, ?_, ?_⟩
  · intro h
    simp only [testerHarnessPath] at h
    have hfind : Judge.findTestFile env fp =
        some (joinPath (dirname fp) ("test_" ++ basename fp)) := by
      simp only [Judge.findTestFile, Judge.test_patterns]
      exact List.find?_cons_of_pos _ h
    simp [Judge.run_tests, hfind, testerHarnessPath]
  · intro t ht
    simp [Judge.run_tests, ht]
  · intro t c out h
    simp [Judge.run_test_file, h]
  · intro h
    simp [Judge.run_tests, h]
  · intro c out h1 h2 h3
    simp [Judge.run_tests, h1, Judge.run_pytest_or_unittest, h2, h3]

theorem verification_precedence_witness :
    Judge.run_tests wEnvHarness "a/lol.py" = Judge.run_test_file wEnvHarness "a/test_lol.py" ∧
    Judge.run_test_file wEnvHarness "a/test_lol.py" = Except.ok (true, "2 passed") ∧
    Judge.run_tests wEnvNone "a/lol.py" = Judge.run_pytest_or_unittest wEnvNone "a" "a/lol.py" ∧
    Judge.run_tests wEnvNone "a/lol.py" = Except.ok (false, "1 failed") := by
  refine ⟨?_, ?_, ?_, ?_⟩
  · exact (verification_precedence wEnvHarness "a/lol.py").1 (by decide)
  · exact (verification_precedence wEnvHarness "a/lol.py").2.2.1 "a/test_lol.py" 0 "2 passed" rfl
  · exact (verification_precedence wEnvNone "a/lol.py").2.2.2.1 (by decide)
  · exact (verification_precedence wEnvNone "a/lol.py").2.2.2.2 1 "1 failed" (by decide) rfl
      (by decide)

/-- C6 (counterexample): the claim asserts a sixth conventional
candidate, `tests/<name>_test.py` at the parent directory's level.  In a
world where exactly that file exists, the code's search finds nothing,
while the six-candidate search described by the claim would find it. -/
theorem conventional_search_sixth_missing :
    Judge.findTestFile cexEnv "proj/pkg/lol.py" = none ∧
    (specSixCandidates "proj/pkg/lol.py").find? cexEnv.pathExists =
      some "proj/tests/lol_test.py" := by decide

/-- C6 (amended): the conventional search checks exactly five candidate
paths — sibling `test_<filename>`, sibling `<name>_test.py`, both
patterns inside `tests/` at the artifact's level, and only the `test_`
prefix pattern inside `tests/` at the parent's level — in that fixed
order, and uses the first candidate that exists. -/
theorem conventional_search_order (env : JudgeEnv) (fp : String) :
    Judge.findTestFile env fp =
      (if env.pathExists (joinPath (dirname fp) ("test_" ++ basename fp)) then
        some (joinPath (dirname fp) ("test_" ++ basename fp))
      else if env.pathExists (joinPath (dirname fp) (stripExt (basename fp) ++ "_test.py")) then
        some (joinPath (dirname fp) (stripExt (basename fp) ++ "_test.py"))
      else if env.pathExists
          (joinPath (joinPath (dirname fp) "tests") ("test_" ++ basename fp)) then
        some (joinPath (joinPath (dirname fp) "tests") ("test_" ++ basename fp))
      else if env.pathExists
          (joinPath (joinPath (dirname fp) "tests") (stripExt (basename fp) ++ "_test.py")) then
        some (joinPath (joinPath (dirname fp) "tests") (stripExt (basename fp) ++ "_test.py"))
      else if env.pathExists
          (joinPath (joinPath (dirname (dirname fp)) "tests") ("test_" ++ basename fp)) then
        some (joinPath (joinPath (dirname (dirname fp)) "tests") ("test_" ++ basename fp))
      else none) := by
  simp only [Judge.findTestFile, Judge.test_patterns]
  exact find?_five _ _ _ _ _ _

/-- C7: a discovery run reporting zero tests — pytest output containing
"no tests ran" or "collected 0 items" case-insensitively, or unittest
output containing "Ran 0 tests" — is never returned as a verdict; the
judge falls through to the syntax-only check on the artifact. -/
theorem zero_tests_falls_through (env : JudgeEnv) (directory fp : String) :
    (∀ c out, env.pytestRun directory = RunResult.completed c out →
      Judge.zeroPytestMarker out = true →
      Judge.run_pytest_or_unittest env directory fp =
        Except.ok (Judge.fallback_syntax_check env fp)) ∧
    (∀ m c out, env.pytestRun directory = RunResult.fileNotFound m →
      env.unittestDiscover directory = RunResult.completed c out →
      containsStr out "Ran 0 tests" = true →
      Judge.run_pytest_or_unittest env directory fp =
        Except.ok (Judge.fallback_syntax_check env fp)) := by
  constructor
  · intro c out h1 h2
    simp [Judge.run_pytest_or_unittest, h1, h2]
  · intro m c out h1 h2 h3
    simp [Judge.run_pytest_or_unittest, h1, h2, h3]

theorem zero_tests_falls_through_witness :
    Judge.run_pytest_or_unittest c7Env "d" "d/f.py" =
      Except.ok (Judge.fallback_syntax_check c7Env "d/f.py") ∧
    Judge.run_pytest_or_unittest c7bEnv "d" "d/f.py" =
      Except.ok (Judge.fallback_syntax_check c7bEnv "d/f.py") :=
  ⟨(zero_tests_falls_through c7Env "d" "d/f.py").1 5 "collected 0 items" rfl (by decide),
   (zero_tests_falls_through c7bEnv "d" "d/f.py").2 "no pytest" 1 "Ran 0 tests in 0.000s" rfl rfl
     (by decide)⟩

/-- C8: a syntactically valid artifact with no harness at any
conventional location and no runner binaries on the host gets the
passing verdict with the "no unit tests found … valid Python syntax"
transcript; the missing binaries are absorbed like "no harness", not
raised. -/
theorem no_harness_no_runner_syntax_pass (env : JudgeEnv) (fp code m1 m2 : String)
    (hnone : ∀ q ∈ Judge.test_patterns fp, env.pathExists q = false)
    (hpy : env.pytestRun (dirname fp) = RunResult.fileNotFound m1)
    (hdisc : env.unittestDiscover (dirname fp) = RunResult.fileNotFound m2)
    (hread : env.readFile fp = some code)
    (hok : env.compileOk code = true) :
    Judge.run_tests env fp =
      Except.ok (true, "✅ No unit tests found, but " ++ basename fp ++
        " has valid Python syntax.") := by
  have hfind : Judge.findTestFile env fp = none := by
    unfold Judge.findTestFile
    rw [List.find?_eq_none]
    intro x hx
    simp [hnone x hx]
  simp [Judge.run_tests, hfind, Judge.run_pytest_or_unittest, hpy, hdisc,
        Judge.fallback_syntax_check, hread, hok]

theorem no_harness_no_runner_syntax_pass_witness :
    Judge.run_tests c8Env "d/f.py" =
      Except.ok (true, "✅ No unit tests found, but f.py has valid Python syntax.") :=
  no_harness_no_runner_syntax_pass c8Env "d/f.py" "print(1)" "no pytest" "no python"
    (by intro q hq; rfl) rfl rfl rfl rfl

/-- C9 (counterexample): with a model response that is not valid JSON,
the auditor does not raise a planner error — it returns a fallback plan
with empty issues and an internal error note, and the stage succeeds. -/
theorem auditor_parse_failure_cex :
    Auditor.analyze aEnvBadJson fs0 "f.py" =
      Except.ok ({ file := "f.py", issues := [], errorField := some "Failed to parse response" },
        fs0) := by decide

/-- C9 (amended): the auditor raises on failures to read the artifact
(and, by propagation, on prompt-read, API or non-dict-parse failures),
and it never writes any file; but a model response that is not valid
JSON is absorbed into a fallback plan rather than raised. -/
theorem auditor_parse_failure_absorbed (env : AuditorEnv) (fs : FS) (fp : String)
    (code promptTemplate resp : String)
    (hc : fsRead fs fp = some code)
    (hp : fsRead fs auditorPromptPath = some promptTemplate)
    (hr : env.llm (promptTemplate ++ "\n\nPython code to analyze:\n" ++ code) = Except.ok resp)
    (hparse : env.parse (stripFences (trimStr resp)) = ParseOutcome.invalidJson) :
    Auditor.analyze env fs fp =
      Except.ok ({ file := fp, issues := [], errorField := some "Failed to parse response" },
        fs) ∧
    (∀ (env2 : AuditorEnv) (fs2 : FS) (fp2 : String) (q : Plan) (fs3 : FS),
      Auditor.analyze env2 fs2 fp2 = Except.ok (q, fs3) → fs3 = fs2) ∧
    (∀ fp2, fsRead fs fp2 = none →
      Auditor.analyze env fs fp2 = Except.error ("No such file: " ++ fp2)) := by
  refine ⟨?_, ?_, ?_⟩
  · simp [Auditor.analyze, hc, hp, hr, hparse]
  · intro env2 fs2 fp2 q fs3 h
    unfold Auditor.analyze at h
    cases h1 : fsRead fs2 fp2 with
    | none => simp [h1] at h
    | some c2 =>
      simp only [h1] at h
      cases h2 : fsRead fs2 auditorPromptPath with
      | none => simp [h2] at h
      | some t2 =>
        simp only [h2] at h
        cases h3 : env2.llm (t2 ++ "\n\nPython code to analyze:\n" ++ c2) with
        | error e => simp [h3] at h
        | ok content =>
          simp only [h3] at h
          cases h4 : env2.parse (stripFences (trimStr content)) with
          | invalidJson => simp [h4] at h; exact h.2.symm
          | nonDict msg => simp [h4] at h
          | dict q2 => simp [h4] at h; exact h.2.symm
  · intro fp2 h
    simp [Auditor.analyze, h]

theorem auditor_parse_failure_absorbed_witness :
    Auditor.analyze aEnvBadJson fs0 "missing.py" =
      Except.error ("No such file: " ++ "missing.py") := by
  have h := auditor_parse_failure_absorbed aEnvBadJson fs0 "f.py" "x = 1" "You are an auditor."
    "that is not json at all" rfl rfl rfl rfl
  exact h.2.2 "missing.py" rfl

/-- C10 (counterexample): two runs, one ending in a fatal auditor error
and one cut off by the iteration bound, produce identical entries in the
batch report — the per-file boolean and its summary mark conflate
`FatalError` with `IncompleteAfterMaxIterations`. -/
theorem report_conflates_outcomes_cex :
    specOutcome (runArtifact oAudFail "f.py" 2).1 = Outcome.FatalError "Auditor failed: boom" ∧
    specOutcome (runArtifact oAllFail "f.py" 2).1 = Outcome.IncompleteAfterMaxIterations ∧
    summaryMark (process_file oAudFail "f.py" 2) = "❌" ∧
    summaryMark (process_file oAllFail "f.py" 2) = "❌" := by decide

/-- C10 (amended): every run ends in exactly one of the three spec-level
outcomes, and the batch report distinguishes `Success` from the other
two (the per-file boolean is true exactly for `Success`), but not
`IncompleteAfterMaxIterations` from `FatalError`. -/
theorem terminal_outcomes (o : Oracles) (fp : String) (m : Nat) :
    (specOutcome (runArtifact o fp m).1 = Outcome.Success ∨
     specOutcome (runArtifact o fp m).1 = Outcome.IncompleteAfterMaxIterations ∨
     ∃ msg, specOutcome (runArtifact o fp m).1 = Outcome.FatalError msg) ∧
    (process_file o fp m = true ↔ specOutcome (runArtifact o fp m).1 = Outcome.Success) := by
  constructor
  · cases h : specOutcome (runArtifact o fp m).1 with
    | Success => exact Or.inl rfl
    | IncompleteAfterMaxIterations => exact Or.inr (Or.inl rfl)
    | FatalError msg => exact Or.inr (Or.inr ⟨msg, rfl⟩)
  · unfold process_file
    exact (specOutcome_success_iff _).symm

end Swarm
